import Mathlib

/-!
Formal model of the core algorithms of the QuickFileBrowser plugin
(source file `quick_file_browser.py`): path arithmetic, the shallow
directory projection (`browse`), the recursive walk with folder pruning
(`list_files`), the glob-pattern compiler (`pat2regex`), the file-type
classifier built by `initialize`, the quick-panel selection handler
(`show_quick_panel` / `on_done`), the saved-path command, and the
status-bar progress animator (`StatusBarThread.update_status_bar`).

Absolute paths are modelled as lists of components: the absolute path
`/a/b` is the list whose elements are the two component strings.  The
`normalize_path` helper of the source only rewrites backslashes to
slashes on Windows, which is the identity at this component level of
abstraction, so it is not modelled separately.
-/

namespace QuickFileBrowser

/-- Valid path component: not empty, not the dot entry and not the
dot-dot entry.  `os.listdir` never returns the dot entries, and a
normalized absolute path never contains them. -/
def validName (s : String) : Bool :=
  !(s == ("")) && !(s == (".")) && !(s == (".."))

/-- Valid absolute path, as a component list. -/
def validPath (p : List String) : Bool :=
  p.all validName

/-- Length of the longest common prefix of two component lists, as
computed by `os.path.relpath` via `os.path.commonprefix` on the split
paths. -/
def commonPrefixLen : List String → List String → Nat
  | a :: as, b :: bs => if a = b then commonPrefixLen as bs + 1 else 0
  | _, _ => 0

/-- Model of `os.path.relpath(p, a)` for absolute component lists `p`
and `a` (lines 149 and 196 of the source): climb out of the non-shared
suffix of `a` with dot-dot entries, then descend into the non-shared
suffix of `p`.  The empty component list stands for the relative path
`"."`. -/
def relpath (p a : List String) : List String :=
  List.replicate (a.length - commonPrefixLen p a) (("..")) ++ p.drop (commonPrefixLen p a)

/-- One step of `os.path.normpath` on an absolute path: empty and dot
components are dropped, a dot-dot component pops the last accumulated
component (at the root it is dropped, matching `normpath` sending the
parent of the root to the root), every other component is appended. -/
def normStep (acc : List String) (c : String) : List String :=
  if c = ("") ∨ c = (".") then acc
  else if c = ("..") then acc.dropLast
  else acc ++ [c]

/-- Model of `os.path.normpath` on an absolute path's component list. -/
def normAbs (p : List String) : List String :=
  p.foldl normStep []

theorem validPath_drop (p : List String) (n : Nat) (h : validPath p = true) :
    validPath (p.drop n) = true := by
  simp only [validPath, List.all_eq_true] at h ⊢
  intro x hx
  exact h x (List.drop_subset n p hx)

theorem foldl_normStep_valid (q : List String) :
    ∀ acc, validPath q = true → List.foldl normStep acc q = acc ++ q := by
  induction q with
  | nil => intro acc _; simp
  | cons c q ih =>
    intro acc h
    simp only [validPath, List.all_cons, Bool.and_eq_true] at h
    have hc := h.1
    have hq : validPath q = true := by simpa [validPath] using h.2
    simp only [validName, Bool.and_eq_true, Bool.not_eq_true', beq_eq_false_iff_ne,
      ne_eq] at hc
    have hstep : normStep acc c = acc ++ [c] := by
      simp [normStep, hc.1.1, hc.1.2, hc.2]
    rw [List.foldl_cons, hstep, ih (acc ++ [c]) hq, List.append_assoc]
    simp

theorem foldl_normStep_climb :
    ∀ (n : Nat) (su acc l : List String), su.length = n →
      List.foldl normStep (acc ++ su) (List.replicate n (("..")) ++ l) =
        List.foldl normStep acc l := by
  intro n
  induction n with
  | zero =>
    intro su acc l h
    rw [List.length_eq_zero] at h
    subst h
    simp
  | succ n ih =>
    intro su acc l h
    have hne : su ≠ [] := by
      intro hs
      subst hs
      simp at h
    rw [List.replicate_succ, List.cons_append, List.foldl_cons]
    have h1 : normStep (acc ++ su) (("..")) = acc ++ su.dropLast := by
      simp [normStep, List.dropLast_append_of_ne_nil _ hne]
    rw [h1]
    exact ih su.dropLast acc l (by simp [List.length_dropLast, h])

theorem commonPrefixLen_le_left : ∀ (p a : List String), commonPrefixLen p a ≤ p.length := by
  intro p
  induction p with
  | nil => intro a; cases a <;> simp [commonPrefixLen]
  | cons x p ih =>
    intro a
    cases a with
    | nil => simp [commonPrefixLen]
    | cons y as =>
      simp only [commonPrefixLen, List.length_cons]
      split
      · exact Nat.succ_le_succ (ih as)
      · exact Nat.zero_le _

theorem commonPrefixLen_le_right : ∀ (p a : List String), commonPrefixLen p a ≤ a.length := by
  intro p
  induction p with
  | nil => intro a; cases a <;> simp [commonPrefixLen]
  | cons x p ih =>
    intro a
    cases a with
    | nil => simp [commonPrefixLen]
    | cons y as =>
      simp only [commonPrefixLen, List.length_cons]
      split
      · exact Nat.succ_le_succ (ih as)
      · exact Nat.zero_le _

theorem take_commonPrefixLen (p : List String) :
    ∀ a, p.take (commonPrefixLen p a) = a.take (commonPrefixLen p a) := by
  induction p with
  | nil => intro a; cases a <;> simp [commonPrefixLen]
  | cons x p ih =>
    intro a
    cases a with
    | nil => simp [commonPrefixLen]
    | cons y as =>
      simp only [commonPrefixLen]
      split
      · rename_i hxy
        rw [List.take_succ_cons, List.take_succ_cons, ih as, hxy]
      · simp

/-- Claim C3: for every absolute directory anchor `a` and every absolute
path `p` (hence for the absolute path of every entry produced by either
listing mode, whose relative rendering is computed by exactly this
`relpath` call, lines 149 and 196 of the source), joining the relative
path onto the anchor and normalizing yields back the absolute path. -/
theorem relative_path_roundtrip (a p : List String)
    (ha : validPath a = true) (hp : validPath p = true) :
    normAbs (a ++ relpath p a) = p := by
  unfold normAbs relpath
  rw [List.foldl_append, foldl_normStep_valid a [] ha, List.nil_append]
  have hlen : (a.drop (commonPrefixLen p a)).length = a.length - commonPrefixLen p a :=
    List.length_drop _ _
  calc
    List.foldl normStep a
        (List.replicate (a.length - commonPrefixLen p a) (("..")) ++
          p.drop (commonPrefixLen p a))
      = List.foldl normStep
          (a.take (commonPrefixLen p a) ++ a.drop (commonPrefixLen p a))
          (List.replicate (a.length - commonPrefixLen p a) (("..")) ++
            p.drop (commonPrefixLen p a)) := by
        rw [List.take_append_drop]
    _ = List.foldl normStep (a.take (commonPrefixLen p a))
          (p.drop (commonPrefixLen p a)) :=
        foldl_normStep_climb _ _ _ _ hlen
    _ = a.take (commonPrefixLen p a) ++ p.drop (commonPrefixLen p a) :=
        foldl_normStep_valid _ _ (validPath_drop p _ hp)
    _ = p.take (commonPrefixLen p a) ++ p.drop (commonPrefixLen p a) := by
        rw [take_commonPrefixLen]
    _ = p := List.take_append_drop _ _

/-- Witness for claim C3 at a concrete anchor and entry path. -/
theorem relative_path_roundtrip_witness :
    normAbs ([("proj"), ("src")] ++
      relpath [("proj"), ("doc"), ("readme.md")] [("proj"), ("src")]) =
      [("proj"), ("doc"), ("readme.md")] :=
  relative_path_roundtrip [("proj"), ("src")] [("proj"), ("doc"), ("readme.md")]
    (by decide) (by decide)

/-- Token of the regex fragment produced by the translation table of
`pat2regex`: a literal character, the single-character wildcard (the glob
question mark, translated to the regex dot), or the any-run wildcard (the
glob star, translated to dot-star). -/
inductive GTok where
  | lit (c : Char)
  | anyOne
  | anyRun
deriving DecidableEq

/-- The translation table of `pat2regex` (lines 381 to 385): the star
becomes the any-run wildcard, the question mark the single-character
wildcard, the dot an escaped literal dot; every other character is kept
as a literal. -/
def convertChar (c : Char) : GTok :=
  if c = ('*') then GTok.anyRun
  else if c = ('?') then GTok.anyOne
  else GTok.lit c

/-- Characters that keep a regular-expression meaning after the
translation table is applied.  A pattern containing one of these leaves
the glob fragment described by the spec; the model treats such a pattern
as failing to compile (in Python, patterns of this shape are the ones
that can raise inside `re.compile` and enter the fallback branch of
`pat2regex`). -/
def regexMetaChars : List Char :=
  [('('), (')'), ('['), (']'), ('\\'), ('|'), ('+'), ('^'), ('$')]

/-- Translate one glob pattern, failing if it leaves the supported
fragment. -/
def convertPat (p : String) : Option (List GTok) :=
  if p.data.any (fun c => regexMetaChars.contains c) then none
  else some (p.data.map convertChar)

/-- Branches of the anchored alternation regex built by `pat2regex` by
joining the converted patterns with the pipe: joining zero patterns
yields the empty pattern, whose anchored form matches exactly the empty
string, i.e. one empty branch. -/
def patBranches (pats : List String) : Option (List (List GTok)) :=
  if pats.isEmpty then some [[]] else pats.mapM convertPat

/-- A compiled matcher: either the anchored alternation `pat2regex`
builds on success, or the fallback regex compiled from the bare any-run
pattern in the except branch, whose start-anchored match accepts every
string. -/
inductive CompiledRegex where
  | anchored (branches : List (List GTok))
  | matchAll
deriving DecidableEq

/-- Matching a token list against an exact character list: the compiled
regex is anchored at both ends, the caret and dollar being wrapped
around the whole alternation. -/
def gmatch : List GTok → List Char → Bool
  | [], s => s.isEmpty
  | GTok.lit _ :: _, [] => false
  | GTok.lit c :: ts, d :: ds => c == d && gmatch ts ds
  | GTok.anyOne :: _, [] => false
  | GTok.anyOne :: ts, _ :: ds => gmatch ts ds
  | GTok.anyRun :: ts, s => s.tails.any (fun su => gmatch ts su)

/-- The match operation of the compiled regex object, `regex.match(name)`:
the anchored alternation matches the entire name on the success path, and
the fallback any-run pattern accepts every string on the failure path. -/
def CompiledRegex.rmatch : CompiledRegex → String → Bool
  | CompiledRegex.anchored bs, s => bs.any (fun b => gmatch b s.data)
  | CompiledRegex.matchAll, _ => true

/-- Model of `pat2regex` (lines 380 to 396): translate each pattern with
the translation table and compile the anchored alternation of the
results; on compile failure, fall back to the regex matching everything
and surface a user-visible error message naming the offending pattern
list.  The second component is the surfaced error message, if any. -/
def pat2regex (patterns : List String) : CompiledRegex × Option String :=
  match patBranches patterns with
  | some bs => (CompiledRegex.anchored bs, none)
  | none =>
    (CompiledRegex.matchAll, some (("Invalid patterns: ") ++ toString patterns))

/-- Claim C5: when compiling the exclusion pattern set fails, `pat2regex`
returns the fallback matcher for which every name matches (so everything
is excluded), and surfaces a user-visible error naming the offending
pattern list; the result is still a usable matcher, so browsing
continues with it. -/
theorem pat2regex_failure_fallback (patterns : List String)
    (h : patBranches patterns = none) :
    (∀ name : String, (pat2regex patterns).1.rmatch name = true) ∧
      (pat2regex patterns).2 =
        some (("Invalid patterns: ") ++ toString patterns) := by
  constructor
  · intro name
    simp [pat2regex, h, CompiledRegex.rmatch]
  · simp [pat2regex, h]

/-- Witness for claim C5 on a concrete malformed pattern list. -/
theorem pat2regex_failure_fallback_witness :
    (pat2regex [("(")]).1.rmatch (("whatever.txt")) = true ∧
      (pat2regex [("(")]).2 =
        some (("Invalid patterns: ") ++ toString [("(")]) :=
  ⟨(pat2regex_failure_fallback [("(")] (by decide)).1 (("whatever.txt")),
   (pat2regex_failure_fallback [("(")] (by decide)).2⟩

/-- Claim C6: the compiled matcher matches the entire name against the
glob set, the star matching any run of characters, the question mark a
single character and the dot a literal dot. -/
theorem pattern_matcher_examples :
    (pat2regex [("*.txt")]).1.rmatch (("foo.txt")) = true ∧
      (pat2regex [("*.md")]).1.rmatch (("foo.txt")) = false ∧
      (pat2regex [("a.?")]).1.rmatch (("a.b")) = true ∧
      (pat2regex [("a.b")]).1.rmatch (("axb")) = false := by decide

/-- One entry of the icon table, modelling the `FileTypeIcon` class
(lines 305 to 313): the category's human-readable name and its action
icon. -/
structure FileTypeIcon where
  name : String
  icon : String
deriving DecidableEq

/-- One entry of the `file_types` configuration mapping: the category
name, the optional icon (defaulted to the Open icon when missing, line
290), and the configured extensions.  A single-string `extensions`
configuration value is modelled as the one-element list; both shapes
only drive the same per-extension assignment loop (lines 292 to 297). -/
structure FileTypeConfig where
  cname : String
  icon : Option String
  extensions : List String

/-- The extension-to-icon dictionary built by `initialize` from the
`file_types` setting before fallback injection (lines 287 to 297).
A dictionary assignment is modelled by consing, the lookup taking the
first (latest) binding, so later assignments shadow earlier ones exactly
as dict overwrite does.  The key `none` models the Python key `None`
used for directories; configured keys are always `some` extension. -/
def baseIcons (fts : List FileTypeConfig) : List (Option String × FileTypeIcon) :=
  fts.foldl
    (fun d ft =>
      ft.extensions.foldl
        (fun d2 e => (some e, FileTypeIcon.mk ft.cname (ft.icon.getD (("Open")))) :: d2)
        d)
    []

/-- Injection of the wildcard fallback entry when absent (lines 299 to
300). -/
def addWildcard (d : List (Option String × FileTypeIcon)) :
    List (Option String × FileTypeIcon) :=
  if (d.lookup (some ((".*")))).isSome then d
  else (some ((".*")), FileTypeIcon.mk (("file")) (("Open"))) :: d

/-- Injection of the directory fallback entry when absent (lines 301 to
302). -/
def addFolder (d : List (Option String × FileTypeIcon)) :
    List (Option String × FileTypeIcon) :=
  if (d.lookup none).isSome then d
  else (none, FileTypeIcon.mk (("folder")) (("Open"))) :: d

/-- The complete `file_type_icons` table built by `initialize`. -/
def buildIcons (fts : List FileTypeConfig) : List (Option String × FileTypeIcon) :=
  addFolder (addWildcard (baseIcons fts))

/-- The classifier lookup performed by the listing operations (lines 143
to 146 and 184 to 189): a file extension missing from the table is
replaced by the wildcard key before the lookup; directories look up the
`none` key.  The `none` result models a `KeyError`. -/
def classifyExt (icons : List (Option String × FileTypeIcon)) :
    Option String → Option FileTypeIcon
  | none => icons.lookup none
  | some e =>
    if (icons.lookup (some e)).isSome then icons.lookup (some e)
    else icons.lookup (some ((".*")))

theorem lookup_addWildcard_wildcard (d : List (Option String × FileTypeIcon)) :
    ((addWildcard d).lookup (some ((".*")))).isSome = true := by
  unfold addWildcard
  split
  · rename_i h
    exact h
  · simp [List.lookup]

theorem lookup_addFolder_some (d : List (Option String × FileTypeIcon)) (k : String) :
    (addFolder d).lookup (some k) = d.lookup (some k) := by
  unfold addFolder
  split
  · rfl
  · simp [List.lookup]

theorem lookup_addFolder_none (d : List (Option String × FileTypeIcon)) :
    ((addFolder d).lookup none).isSome = true := by
  unfold addFolder
  split
  · rename_i h
    exact h
  · simp [List.lookup]

/-- Claim C7: for every configuration, including the empty one, the
classifier lookup is total: a non-null extension absent from the table
is classified by the wildcard fallback entry, `none` (a directory) by
the directory fallback entry, and both fallback entries are injected at
construction when the configuration omits them, so no lookup performed
by the listing operations can fail. -/
theorem classifier_lookup_total (fts : List FileTypeConfig) (e : String)
    (habsent : (buildIcons fts).lookup (some e) = none) :
    (classifyExt (buildIcons fts) (some e) =
        (buildIcons fts).lookup (some ((".*"))) ∧
      ((buildIcons fts).lookup (some ((".*")))).isSome = true) ∧
      (classifyExt (buildIcons fts) none = (buildIcons fts).lookup none ∧
        ((buildIcons fts).lookup none).isSome = true) ∧
      ∀ k : Option String, (classifyExt (buildIcons fts) k).isSome = true := by
  have hw : ((buildIcons fts).lookup (some ((".*")))).isSome = true := by
    unfold buildIcons
    rw [lookup_addFolder_some]
    exact lookup_addWildcard_wildcard _
  have hn : ((buildIcons fts).lookup none).isSome = true :=
    lookup_addFolder_none _
  refine ⟨⟨?_, hw⟩, ⟨rfl, hn⟩, ?_⟩
  · simp [classifyExt, habsent]
  · intro k
    match k with
    | none => exact hn
    | some x =>
      simp only [classifyExt]
      split
      · rename_i hx
        exact hx
      · exact hw

/-- Witness for claim C7 on the empty configuration and an
unclassified extension. -/
theorem classifier_lookup_total_witness :
    classifyExt (buildIcons []) (some ((".xyz"))) =
        (buildIcons []).lookup (some ((".*"))) ∧
      (classifyExt (buildIcons []) none).isSome = true :=
  ⟨((classifier_lookup_total [] ((".xyz")) (by decide)).1).1,
   ((classifier_lookup_total [] ((".xyz")) (by decide)).2).2 none⟩

/-- Panel item kind, modelling the `KIND_FILE` and `KIND_DIRECTORY`
tuples (lines 102 to 103). -/
inductive Kind where
  | file
  | directory
deriving DecidableEq

/-- The fields of a produced `sublime.QuickPanelItem` that the model
tracks: the trigger label, the annotation string, the kind, and the
relative path rendered into the item's detail row by `action_tags`.
The HTML markup of the action links is presentation-only and is not
modelled. -/
structure Item where
  label : String
  annot : String
  kind : Kind
  relPath : List String
deriving DecidableEq

/-- Rendering of an absolute component list as the slash-joined string
used for the current-directory pseudo-entry's label. -/
def renderPath (p : List String) : String :=
  ("/") ++ String.intercalate (("/")) p

/-- Configuration state of the browser class as set up by
`initialize`: the show-hidden option, the ignored extension list, the
icon table and the two compiled exclusion matchers. -/
structure Cfg where
  showHiddenFiles : Bool
  ignoredFileTypes : List String
  fileTypeIcons : List (Option String × FileTypeIcon)
  fileExclude : CompiledRegex
  folderExclude : CompiledRegex

/-- Icon-table lookup `file_type_icons[k]`.  After `initialize` the two
fallback keys are always present (see `classifier_lookup_total`), so the
default value of this total variant is unreachable in the modelled
flows. -/
def iconFor (icons : List (Option String × FileTypeIcon)) (k : Option String) :
    FileTypeIcon :=
  (icons.lookup k).getD (FileTypeIcon.mk (("folder")) (("Open")))

/-- Model of `os.path.splitext(name)[1]` on a bare file name: the
extension starts at the last dot, except that a run of leading dots
never begins an extension. -/
def splitextExt (s : String) : String :=
  let rest := s.data.dropWhile (fun c => c == ('.'))
  let revTail := rest.reverse.takeWhile (fun c => !(c == ('.')))
  if revTail.length = rest.length then ("")
  else String.mk (('.') :: revTail.reverse)

/-- Model of `make_item` (lines 195 to 204): the relative path is
computed against the session's anchor (`init_path`), and the annotation
is the classified category's name. -/
def make_item (icons : List (Option String × FileTypeIcon)) (anchor : List String)
    (label : String) (absolute : List String) (ext : Option String) (kind : Kind) :
    Item :=
  { label := label
    annot := (iconFor icons ext).name
    kind := kind
    relPath := relpath absolute anchor }

/-- Processing of one `os.listdir` entry inside `browse` (lines 176 to
191): hidden names are skipped unless configured visible; for a file, an
ignored extension suppresses the entry entirely and an unclassified
extension is replaced by the wildcard key; a directory uses the `none`
key.  The listing entry carries the name and whether `isfile` holds for
its absolute path. -/
def browseChild (cfg : Cfg) (anchor curdir : List String) (e : String × Bool) :
    Option (List String × Item) :=
  if e.1.startsWith ((".")) && !cfg.showHiddenFiles then none
  else
    let absolute := curdir ++ [e.1]
    if e.2 then
      let ext := splitextExt e.1
      if cfg.ignoredFileTypes.contains ext then none
      else
        let ext2 :=
          if (cfg.fileTypeIcons.lookup (some ext)).isSome then ext else ((".*"))
        some (absolute, make_item cfg.fileTypeIcons anchor e.1 absolute (some ext2) Kind.file)
    else
      some (absolute, make_item cfg.fileTypeIcons anchor e.1 absolute none Kind.directory)

/-- Annotation prefixing performed on the two pseudo-entries (lines 174
to 175). -/
def markAnnot (pre : String) (it : Item) : Item :=
  { it with annot := pre ++ it.annot }

/-- Model of `browse` (lines 165 to 193), given the directory listing
that `os.listdir(curdir)` returned: the parent pseudo-entry (absolute
path of the parent directory, computed by `abspath(join(curdir, ..))`,
i.e. dropping the last component), then the current pseudo-entry, then
the children in native enumeration order.  Returns the parallel `paths`
and `items` lists handed to `show_quick_panel`. -/
def browse (cfg : Cfg) (anchor curdir : List String)
    (listing : List (String × Bool)) : List (List String) × List Item :=
  let children := listing.filterMap (browseChild cfg anchor curdir)
  ([curdir.dropLast, curdir] ++ children.map (fun x => x.1),
   [markAnnot (("parent "))
      (make_item cfg.fileTypeIcons anchor ((("..")))
        curdir.dropLast none Kind.directory),
    markAnnot (("current "))
      (make_item cfg.fileTypeIcons anchor (renderPath curdir)
        curdir none Kind.directory)]
     ++ children.map (fun x => x.2))

theorem parent_annot_ne_current_annot (s : String) :
    (("parent ")) ++ s ≠ (("current ")) ++ s := by
  intro h
  have h2 := congrArg String.data h
  rw [String.data_append, String.data_append] at h2
  have h3 : (("parent ")).data = (("current ")).data :=
    List.append_cancel_right h2
  exact absurd h3 (by decide)

/-- Claim C1: for every directory that can be read (every listing
`os.listdir` returns), `browse` yields at least two entries, and the
first two are, in order, the parent pseudo-entry for the parent
directory and the current pseudo-entry for the directory itself, both
directory-kind, with distinct annotations carrying the parent and
current markers. -/
theorem browse_always_two_pseudo_entries (cfg : Cfg) (anchor curdir : List String)
    (listing : List (String × Bool)) :
    ∃ it0 it1 restI restP,
      (browse cfg anchor curdir listing).2 = it0 :: it1 :: restI ∧
      (browse cfg anchor curdir listing).1 = curdir.dropLast :: curdir :: restP ∧
      2 ≤ (browse cfg anchor curdir listing).2.length ∧
      it0.kind = Kind.directory ∧ it1.kind = Kind.directory ∧
      it0.annot = (("parent ")) ++ (iconFor cfg.fileTypeIcons none).name ∧
      it1.annot = (("current ")) ++ (iconFor cfg.fileTypeIcons none).name ∧
      it0.annot ≠ it1.annot := by
  refine ⟨_, _, _, _, rfl, rfl, ?_, rfl, rfl, rfl, rfl, ?_⟩
  · show 2 ≤ (_ :: _ :: _ : List Item).length
    simp
  · exact parent_annot_ne_current_annot _

/-- A directory tree: name, subdirectories, files.  Models the part of
the filesystem that `os.walk` traverses. -/
inductive Dir where
  | mk (dname : String) (subdirs : List Dir) (files : List String)

/-- Name of a directory tree node. -/
def Dir.dname : Dir → String
  | Dir.mk n _ _ => n

mutual
/-- Model of the `os.walk` loop of `list_files` (lines 137 to 138):
top-down traversal emitting, for every visited directory, its files
paired with the directory's component path relative to the walk root.
The in-place filtering of `dirs` prunes every subdirectory whose name
matches the folder-exclusion matcher, so a pruned subtree is never
descended into. -/
def walkFiles (exF : String → Bool) : Dir → List (List String × String)
  | Dir.mk _ ds fs =>
    fs.map (fun f => (([] : List String), f)) ++ walkSubs exF ds

/-- Traversal of the retained subdirectories, in order. -/
def walkSubs (exF : String → Bool) : List Dir → List (List String × String)
  | [] => []
  | d :: ds =>
    (if exF d.dname then []
     else (walkFiles exF d).map (fun e => (d.dname :: e.1, e.2)))
      ++ walkSubs exF ds
end

/-- Model of `list_files` (lines 133 to 163): walk from the session path
with folder pruning, skip every file whose name matches the
file-exclusion matcher or whose extension is in the ignored list,
replace an unclassified extension by the wildcard key, and record each
remaining file's absolute path (walk root plus relative directory plus
name) together with its panel item.  The single `path` argument is both
the walk root and the session anchor, exactly as in `__init__`. -/
def list_files (cfg : Cfg) (path : List String) (t : Dir) :
    List (List String) × List Item :=
  let es := (walkFiles cfg.folderExclude.rmatch t).filterMap
    (fun e =>
      if cfg.fileExclude.rmatch e.2 then none
      else
        let ext := splitextExt e.2
        if cfg.ignoredFileTypes.contains ext then none
        else
          let ext2 :=
            if (cfg.fileTypeIcons.lookup (some ext)).isSome then ext else ((".*"))
          let absolute := path ++ e.1 ++ [e.2]
          some (absolute,
            { label := e.2
              annot := (iconFor cfg.fileTypeIcons (some ext2)).name
              kind := Kind.file
              relPath := relpath absolute path }))
  (es.map (fun x => x.1), es.map (fun x => x.2))

theorem walk_no_excluded_aux (exF : String → Bool) :
    ∀ n : Nat,
      (∀ t : Dir, sizeOf t ≤ n →
        ∀ e ∈ walkFiles exF t, ∀ x ∈ e.1, exF x = false) ∧
      (∀ ds : List Dir, sizeOf ds ≤ n →
        ∀ e ∈ walkSubs exF ds, ∀ x ∈ e.1, exF x = false) := by
  intro n
  induction n with
  | zero =>
    refine ⟨?_, ?_⟩
    · intro t ht
      exfalso
      cases t
      simp at ht
    · intro ds hds
      exfalso
      cases ds <;> simp at hds
  | succ n ih =>
    refine ⟨?_, ?_⟩
    · intro t ht e he x hx
      cases t with
      | mk nm ds fs =>
        simp only [walkFiles, List.mem_append] at he
        cases he with
        | inl hf =>
          obtain ⟨f, _, hfe⟩ := List.mem_map.mp hf
          rw [← hfe] at hx
          simp at hx
        | inr hs =>
          have hsize : sizeOf ds ≤ n := by
            simp at ht
            omega
          exact ih.2 ds hsize e hs x hx
    · intro ds hds e he x hx
      cases ds with
      | nil =>
        simp [walkSubs] at he
      | cons d ds2 =>
        simp only [walkSubs, List.mem_append] at he
        cases he with
        | inl hhead =>
          by_cases hex : exF d.dname = true
          · simp [hex] at hhead
          · have hexf : exF d.dname = false := by
              exact Bool.not_eq_true _ ▸ (by simpa using hex)
            simp only [hexf, Bool.false_eq_true, if_false] at hhead
            obtain ⟨e2, he2, hee⟩ := List.mem_map.mp hhead
            have hsize : sizeOf d ≤ n := by
              simp at hds
              omega
            rw [← hee] at hx
            simp only [List.mem_cons] at hx
            cases hx with
            | inl hxd => rw [hxd]; exact hexf
            | inr hx2 => exact ih.1 d hsize e2 he2 x hx2
        | inr htail =>
          have hsize : sizeOf ds2 ≤ n := by
            simp at hds
            omega
          exact ih.2 ds2 hsize e htail x hx

theorem walkFiles_no_excluded (exF : String → Bool) (t : Dir) :
    ∀ e ∈ walkFiles exF t, ∀ x ∈ e.1, exF x = false :=
  (walk_no_excluded_aux exF (sizeOf t)).1 t (Nat.le_refl _)

/-- Claim C2: the deep listing never contains a file lying beneath a
pruned directory: every produced absolute path extends the walk root,
and no directory component strictly below the root on the way to the
file matches the folder-exclusion matcher, at any nesting depth. -/
theorem list_files_never_descends_pruned (cfg : Cfg) (path : List String)
    (t : Dir) :
    ∀ q ∈ (list_files cfg path t).1,
      q.take path.length = path ∧
        ∀ x ∈ (q.drop path.length).dropLast,
          cfg.folderExclude.rmatch x = false := by
  intro q hq
  simp only [list_files] at hq
  obtain ⟨⟨abs, it⟩, hmem, rfl⟩ := List.mem_map.mp hq
  obtain ⟨e, hewalk, hsome⟩ := List.mem_filterMap.mp hmem
  have habs : abs = path ++ e.1 ++ [e.2] ∧ ∀ x ∈ e.1, cfg.folderExclude.rmatch x = false := by
    constructor
    · split at hsome
      · exact absurd hsome (by simp)
      · split at hsome
        · exact absurd hsome (by simp)
        · simp only [Option.some.injEq, Prod.mk.injEq] at hsome
          exact hsome.1.symm
    · exact walkFiles_no_excluded cfg.folderExclude.rmatch t e hewalk
  obtain ⟨hdecomp, hclean⟩ := habs
  subst hdecomp
  rw [List.append_assoc]
  constructor
  · exact List.take_left path (e.1 ++ [e.2])
  · rw [List.drop_left, List.dropLast_concat]
    exact hclean

/-- Concrete configuration for witness evaluation: folders named skip
are excluded, no file exclusions, no ignored extensions, empty icon
configuration. -/
def cfgW : Cfg :=
  { showHiddenFiles := true
    ignoredFileTypes := []
    fileTypeIcons := buildIcons []
    fileExclude := (pat2regex []).1
    folderExclude := (pat2regex [("skip")]).1 }

/-- Concrete directory tree for witness evaluation. -/
def treeW : Dir :=
  Dir.mk (("root"))
    [Dir.mk (("skip")) [] [("secret.txt")], Dir.mk (("ok")) [] [("a.txt")]]
    [("top.txt")]

/-- Witness for claim C2 at a concrete tree and matcher. -/
theorem list_files_never_descends_pruned_witness :
    ([("r"), ("ok"), ("a.txt")] : List String).take
        ([("r")] : List String).length = [("r")] ∧
      ∀ x ∈ (([("r"), ("ok"), ("a.txt")] : List String).drop
          ([("r")] : List String).length).dropLast,
        cfgW.folderExclude.rmatch x = false :=
  list_files_never_descends_pruned cfgW [("r")] treeW
    [("r"), ("ok"), ("a.txt")] (by decide)

/-- Oscillator state of `StatusBarThread` (lines 334 to 336): the marker
position and the signed step. -/
structure AnimState where
  state : Int
  step : Int
deriving DecidableEq

/-- Initial animator state set in `__init__` (lines 335 to 336):
position seven, step one. -/
def animInit : AnimState := { state := 7, step := 1 }

/-- Model of `update_status_bar` (lines 365 to 369): at either end of
the bar the step is reflected, then the position advances by the
step. -/
def update_status_bar (a : AnimState) : AnimState :=
  let s := if a.state = 0 ∨ a.state = 7 then -a.step else a.step
  { state := a.state + s, step := s }

/-- Space padding of the rendered frame; a negative count renders as the
empty string, as in Python string repetition. -/
def spacesI (n : Int) : String :=
  String.mk (List.replicate n.toNat (' '))

/-- The frame string rendered on line 369. -/
def animFrame (a : AnimState) : String :=
  ("[") ++ spacesI a.state ++ ("=") ++ spacesI (7 - a.state) ++ ("]")

/-- The marker position after `n` ticks, one tick being one call of
`update_status_bar`; the frame rendered by the n-th status update shows
the position after `n` ticks, the first rendered frame being tick
one. -/
def animPosAfter (n : Nat) : Int :=
  (update_status_bar^[n] animInit).state

/-- Counterexample to claim C4: the first rendered frame (tick one)
shows position six, not zero; after seven ticks the marker sits at
position zero, not at the rightmost position seven; and after eight
ticks it sits at position one, not six.  Even counting the first
rendered frame as tick zero, the position seven ticks later is one and
eight ticks later is two, never seven. -/
theorem progress_position_counterexample :
    animPosAfter 1 = 6 ∧ animPosAfter 7 = 0 ∧ ¬(animPosAfter 7 = 7) ∧
      animPosAfter 8 = 1 ∧ ¬(animPosAfter 8 = 6) ∧ animPosAfter 9 = 2 := by
  decide

/-- Claim C4 as amended: the animator starts at position seven with step
one, and the boundary check runs before the move, so the first rendered
frame (tick one) shows position six moving down; after seven ticks the
marker is at position zero (leftmost), the direction reverses so that
after eight ticks it is at position one, and after fourteen ticks it is
back at position seven; the animator state is periodic with period
fourteen, the position always stays between zero and seven, and each
rendered frame is the opening bracket, position many spaces, the marker,
seven minus position many spaces, and the closing bracket — a pure,
deterministic function of the tick count. -/
theorem progress_animation_behavior :
    animPosAfter 0 = 7 ∧ animPosAfter 1 = 6 ∧ animPosAfter 7 = 0 ∧
      animPosAfter 8 = 1 ∧ animPosAfter 14 = 7 ∧
      (∀ n : Nat,
        update_status_bar^[n + 14] animInit = update_status_bar^[n] animInit) ∧
      (∀ n : Nat, 0 ≤ animPosAfter n ∧ animPosAfter n ≤ 7) ∧
      ∀ n : Nat, animFrame (update_status_bar^[n] animInit) =
        ("[") ++ spacesI (animPosAfter n) ++ ("=") ++
          spacesI (7 - animPosAfter n) ++ ("]") := by
  have hper : update_status_bar^[14] animInit = animInit := by decide
  have hshift : ∀ n : Nat,
      update_status_bar^[n + 14] animInit = update_status_bar^[n] animInit := by
    intro n
    rw [Function.iterate_add_apply, hper]
  have hmod : ∀ n : Nat,
      update_status_bar^[n] animInit = update_status_bar^[n % 14] animInit := by
    intro n
    induction n using Nat.strong_induction_on with
    | _ n ih =>
      by_cases h : n < 14
      · rw [Nat.mod_eq_of_lt h]
      · have hge : 14 ≤ n := Nat.le_of_not_lt h
        calc update_status_bar^[n] animInit
            = update_status_bar^[n - 14 + 14] animInit := by
              rw [Nat.sub_add_cancel hge]
          _ = update_status_bar^[n - 14] animInit := hshift _
          _ = update_status_bar^[(n - 14) % 14] animInit :=
              ih (n - 14) (by omega)
          _ = update_status_bar^[n % 14] animInit := by
              rw [Nat.mod_eq_sub_mod hge]
  have hbound14 : ∀ m : Nat, m < 14 →
      0 ≤ animPosAfter m ∧ animPosAfter m ≤ 7 := by decide
  have hbound : ∀ n : Nat, 0 ≤ animPosAfter n ∧ animPosAfter n ≤ 7 := by
    intro n
    have hm := hmod n
    unfold animPosAfter
    rw [hm]
    exact hbound14 (n % 14) (Nat.mod_lt _ (by omega))
  exact ⟨by decide, by decide, by decide, by decide, by decide,
    hshift, hbound, fun n => rfl⟩

/-- The process-wide saved-paths table `QuickPanelFileBrowser.path_list`
(line 107), a dictionary keyed by window identity, modelled as a
function to an optional list. -/
abbrev PathTable := Nat → Option (List String)

/-- Dictionary update: set or remove the entry of one window. -/
def tupdate (t : PathTable) (w : Nat) (v : Option (List String)) : PathTable :=
  fun x => if x = w then v else t x

/-- The query `path_list.get(window_id, [])`. -/
def pathsOf (t : PathTable) (w : Nat) : List String :=
  (t w).getD []

/-- Model of the dismissal branch of `on_done` (lines 242 to 246):
`path_list.pop(window_id)` removes the window's entry, raising a
`KeyError` (modelled as `none`) if absent — unreachable in the program,
since `__init__` always seeds the entry; when the popped list is
non-empty, its paths joined with newlines are written to the clipboard
and a count is reported as a status message.  The result carries the new
table, the clipboard write, and the status message. -/
def onDismiss (w : Nat) (t : PathTable) :
    Option (PathTable × Option String × Option String) :=
  match t w with
  | none => none
  | some l =>
    if l.isEmpty then some (tupdate t w none, none, none)
    else
      some (tupdate t w none,
        some (String.intercalate (("\n")) l),
        some (("Copied ") ++ toString l.length ++ (" paths")))

/-- Claim C8: dismissing the listing while the window's saved-paths list
is the two paths a and b copies exactly their newline join to the
clipboard, reports a count, and removes the window's table entry, so a
subsequent query yields the empty list; a window whose saved list is
empty triggers no clipboard write. -/
theorem dismiss_flushes_saved_paths (w : Nat) (t : PathTable)
    (h : t w = some [("a"), ("b")]) :
    onDismiss w t =
        some (tupdate t w none, some (("a\nb")), some (("Copied 2 paths"))) ∧
      pathsOf (tupdate t w none) w = [] ∧
      ∀ t2 : PathTable, t2 w = some [] →
        onDismiss w t2 = some (tupdate t2 w none, none, none) := by
  refine ⟨?_, ?_, ?_⟩
  · simp [onDismiss, h]
    exact ⟨rfl, rfl⟩
  · simp [pathsOf, tupdate]
  · intro t2 h2
    simp [onDismiss, h2]

/-- Witness for claim C8 on a concrete table. -/
theorem dismiss_flushes_saved_paths_witness :
    onDismiss 0 (fun w => if w = 0 then some [("a"), ("b")] else none) =
        some (tupdate (fun w => if w = 0 then some [("a"), ("b")] else none) 0 none,
          some (("a\nb")), some (("Copied 2 paths"))) ∧
      pathsOf
        (tupdate (fun w => if w = 0 then some [("a"), ("b")] else none) 0 none)
        0 = [] :=
  ⟨(dismiss_flushes_saved_paths 0 _ rfl).1,
   (dismiss_flushes_saved_paths 0 _ rfl).2.1⟩

/-- Model of `QuickFileBrowserSavePathCommand.run` (lines 87 to 90):
`path_list.get(window_id, [])` returns the stored list object when the
window has an entry and a fresh empty list otherwise; `append` mutates
the returned list in place, so with no entry the appended path lands in
the discarded fresh list and the table is unchanged, while with an entry
the path is appended at the end of that entry's list.  The Saved status
message is emitted in both cases. -/
def savePathCmd (w : Nat) (p : String) (t : PathTable) : PathTable × String :=
  match t w with
  | none => (t, ("Saved ") ++ p)
  | some l => (tupdate t w (some (l ++ [p])), ("Saved ") ++ p)

/-- Claim C10: invoking the save-path command for a window identity with
no entry in the process-wide table leaves the table completely unchanged
while still emitting the Saved status message; when an entry exists, the
path is appended at the end of that entry's list and no other window's
entry is modified. -/
theorem save_path_untracked_window_frame (w : Nat) (p : String) (t : PathTable) :
    (t w = none → savePathCmd w p t = (t, ("Saved ") ++ p)) ∧
      ∀ l, t w = some l →
        (savePathCmd w p t).1 w = some (l ++ [p]) ∧
          (savePathCmd w p t).2 = ("Saved ") ++ p ∧
          ∀ v, ¬(v = w) → (savePathCmd w p t).1 v = t v := by
  constructor
  · intro h
    simp [savePathCmd, h]
  · intro l h
    refine ⟨?_, ?_, ?_⟩
    · simp [savePathCmd, h, tupdate]
    · simp [savePathCmd, h]
    · intro v hv
      simp [savePathCmd, h, tupdate, hv]

/-- Witness for claim C10 on concrete tables, covering both the
untracked-window case and the tracked-window case. -/
theorem save_path_untracked_window_frame_witness :
    savePathCmd 1 (("x")) (fun _ => none) =
        ((fun _ => none : PathTable), ("Saved ") ++ ("x")) ∧
      (savePathCmd 0 (("b"))
          (fun w => if w = 0 then some [("a")] else none)).1 0 =
        some ([("a")] ++ [("b")]) :=
  ⟨(save_path_untracked_window_frame 1 (("x")) (fun _ => none)).1 rfl,
   ((save_path_untracked_window_frame 0 (("b"))
      (fun w => if w = 0 then some [("a")] else none)).2 [("a")] rfl).1⟩

/-- Filesystem interface for the shallow mode: `os.listdir` either
returns the entries of a directory, each name paired with its `isfile`
status, or raises, carrying an error message. -/
abbrev FS := List String → Except String (List (String × Bool))

/-- A `browse` call that may fail: `os.listdir(curdir)` is the failing
operation inside it; on success the listing is projected by `browse`. -/
def browseExc (cfg : Cfg) (fs : FS) (anchor curdir : List String) :
    Except String (List (List String) × List Item) :=
  match fs curdir with
  | Except.error e => Except.error e
  | Except.ok listing => Except.ok (browse cfg anchor curdir listing)

/-- Observable outcome of one `on_done` invocation (lines 241 to 262):
the saved-paths table afterwards, the listing the handler redisplays
(`none` when the panel stays closed), the transient status message, the
clipboard write, and the opened file. -/
structure StepOut where
  table : PathTable
  redisplayed : Option (List (List String) × List Item)
  statusMsg : Option String
  clipboard : Option String
  openedFile : Option (List String)

/-- Model of the `on_done` selection handler (lines 241 to 262).  The
selection is `none` when the user dismissed the panel (index minus one)
and otherwise carries the selected index and whether the primary
modifier key was held.  The overall `none` result models an uncaught
exception (a `KeyError` on an unseeded window or an out-of-range index),
both unreachable in the program's own flows.  On a directory selection
other than the current pseudo-entry, `browse` is attempted: on success
its new listing is displayed; on failure the error text becomes a status
message and the very same items list is redisplayed. -/
def onDoneStep (cfg : Cfg) (fs : FS) (anchor : List String) (w : Nat)
    (table : PathTable) (paths : List (List String)) (items : List Item)
    (curdir : List String) (sel : Option (Nat × Bool)) : Option StepOut :=
  match sel with
  | none =>
    match onDismiss w table with
    | none => none
    | some (t2, cb, st) =>
      some { table := t2, redisplayed := none, statusMsg := st,
             clipboard := cb, openedFile := none }
  | some (i, modifier) =>
    match paths[i]?, items[i]? with
    | some path, some item =>
      if item.kind = Kind.file then
        some { table := table
               redisplayed := if modifier then some (paths, items) else none
               statusMsg := none
               clipboard := none
               openedFile := some path }
      else if ¬(path = curdir) then
        match browseExc cfg fs anchor path with
        | Except.ok res =>
          some { table := table, redisplayed := some res, statusMsg := none,
                 clipboard := none, openedFile := none }
        | Except.error e =>
          some { table := table, redisplayed := some (paths, items),
                 statusMsg := some e, clipboard := none, openedFile := none }
      else
        some { table := table, redisplayed := some (paths, items),
               statusMsg := none, clipboard := none, openedFile := none }
    | _, _ => none

/-- Claim C9: from the listing of a directory, selecting a directory
entry other than the current pseudo-entry whose projection fails (for
example, permission denied) reports the error as a transient status
message and redisplays exactly the same items; the saved-paths table,
the current directory and the anchor are untouched by the failed
transition. -/
theorem descend_failure_preserves_session (cfg : Cfg) (fs : FS)
    (anchor : List String) (w : Nat) (table : PathTable)
    (paths : List (List String)) (items : List Item) (curdir : List String)
    (i : Nat) (modifier : Bool) (path : List String) (item : Item) (e : String)
    (hp : paths[i]? = some path) (hi : items[i]? = some item)
    (hk : item.kind = Kind.directory) (hne : ¬(path = curdir))
    (hfail : fs path = Except.error e) :
    onDoneStep cfg fs anchor w table paths items curdir (some (i, modifier)) =
      some { table := table, redisplayed := some (paths, items),
             statusMsg := some e, clipboard := none, openedFile := none } := by
  have hkf : ¬(item.kind = Kind.file) := by
    rw [hk]
    decide
  simp [onDoneStep, hp, hi, hkf, hne, browseExc, hfail]

/-- Concrete directory item for witness evaluation. -/
def itemW : Item :=
  { label := ("sub"), annot := ("folder"), kind := Kind.directory,
    relPath := [("sub")] }

/-- Witness for claim C9 on a concrete failing filesystem. -/
theorem descend_failure_preserves_session_witness :
    onDoneStep cfgW (fun _ => Except.error (("permission denied"))) [] 0
        (fun _ => none) [[("sub")]] [itemW] [] (some (0, false)) =
      some { table := (fun _ => none : PathTable),
             redisplayed := some ([[("sub")]], [itemW]),
             statusMsg := some (("permission denied")), clipboard := none,
             openedFile := none } :=
  descend_failure_preserves_session cfgW _ [] 0 _ _ _ [] 0 false [("sub")]
    itemW (("permission denied")) rfl rfl rfl (by simp) rfl

end QuickFileBrowser
